import Mathlib

/-!
Shallow embedding of `speedtest_avg.py` (a CLI that logs speedtest results
to a JSON file and reports windowed averages) and proofs of the claimed
properties of its specification.

Python values are modelled as follows: `int` as `Int`, floating point
measurement values as `ℚ` (exact rationals; Python's `round(x, 2)` is
modelled as exact round-half-to-even at two decimals), file paths and raw
command line text as `List Char`, parsed JSON values as an inductive
`Json` type (the `json.dumps`/`json.loads` pair of the standard library is
trusted to round-trip, so files store parsed values), and the filesystem
as a map from paths to optional contents together with permission flags.
`sys.exit(code)` and uncaught Python exceptions are both modelled by the
`PyExit` type, carried in the `Except` monad.
-/

/-! ## Constants from the source -/

def LOG_VERSION : String := "1.0"

def LOG_FILE_EXT : List Char := ['.', 'j', 's', 'o', 'n']

def MEGA_FACTOR : ℚ := 1000000

def DAY_LENGTH : Int := 86400

def DEFAULT_NUM_DAYS : Int := 7

/-- `os.EX_OK` -/
def EX_OK : Int := 0

/-- `os.EX_NOINPUT` -/
def EX_NOINPUT : Int := 66

/-- `os.EX_UNAVAILABLE` -/
def EX_UNAVAILABLE : Int := 69

/-- `os.EX_CANTCREAT` -/
def EX_CANTCREAT : Int := 73

/-- `os.EX_TEMPFAIL` -/
def EX_TEMPFAIL : Int := 75

/-- `os.EX_NOPERM` -/
def EX_NOPERM : Int := 77

/-! ## Ways the process can stop: `sys.exit` or an uncaught exception -/

/-- Outcome of running a piece of the program to termination: either a
`sys.exit(code)`, or an uncaught Python exception (`TypeError`,
`ZeroDivisionError`). -/
inductive PyExit where
  | exit (code : Int)
  | typeError
  | zeroDivision
deriving DecidableEq, Repr

/-! ## Data model -/

/-- One logged speedtest, as built by `run_speedtest`:
`{"timestamp": ..., "ping": ..., "download": ..., "upload": ...}`. -/
structure MeasurementRecord where
  timestamp : Int
  ping : ℚ
  download : ℚ
  upload : ℚ
deriving DecidableEq, Repr

/-- The whole log document: `{"version": ..., "tests": [...]}`. -/
structure LogDocument where
  version : String
  tests : List MeasurementRecord
deriving DecidableEq, Repr

/-- Parsed JSON values, the result of `json.loads`. -/
inductive Json where
  | str (s : String)
  | int (n : Int)
  | num (q : ℚ)
  | arr (xs : List Json)
  | obj (fields : List (String × Json))

/-- Python dict lookup `d[key]` on a JSON object, `none` on `KeyError`. -/
def jsonLookup : List (String × Json) → String → Option Json
  | [], _ => none
  | (k, v) :: rest, key => if k = key then some v else jsonLookup rest key

/-- The JSON object a `MeasurementRecord` dict serializes to. -/
def recToJson (r : MeasurementRecord) : Json :=
  .obj [("timestamp", .int r.timestamp), ("ping", .num r.ping),
        ("download", .num r.download), ("upload", .num r.upload)]

/-- The JSON object the log dict serializes to (`json.dumps` argument in
`write_log`). -/
def logToJson (d : LogDocument) : Json :=
  .obj [("version", .str d.version), ("tests", .arr (d.tests.map recToJson))]

/-- Reading a measurement record back out of parsed JSON: the field
accesses `test['timestamp']`, `test['ping']`, `test['download']`,
`test['upload']` that the program performs on each element of
`log_data['tests']`. `none` models the uncaught `KeyError`/`TypeError`
a differently-shaped value would raise. -/
def recFromJson : Json → Option MeasurementRecord
  | .obj fs =>
    match jsonLookup fs "timestamp", jsonLookup fs "ping",
          jsonLookup fs "download", jsonLookup fs "upload" with
    | some (.int t), some (.num p), some (.num d), some (.num u) =>
      some ⟨t, p, d, u⟩
    | _, _, _, _ => none
  | _ => none

/-- Reading every element of a JSON array back as a measurement record;
`none` as soon as one element does not have the record shape. -/
def recsFromJson : List Json → Option (List MeasurementRecord)
  | [] => some []
  | j :: rest =>
    match recFromJson j, recsFromJson rest with
    | some r, some rs => some (r :: rs)
    | _, _ => none

/-- Reading the whole log document out of parsed JSON: the accesses
`log_data['version']` (for the version check in `get_log_data`) and
`log_data['tests']` (in `main`/`show_averages`). -/
def logFromJson : Json → Option LogDocument
  | .obj fs =>
    match jsonLookup fs "version", jsonLookup fs "tests" with
    | some (.str v), some (.arr xs) =>
      match recsFromJson xs with
      | some ts => some ⟨v, ts⟩
      | none => none
    | _, _ => none
  | _ => none

/-! ## Filesystem model -/

/-- A file path (Python `str`). -/
def FPath := List Char
deriving DecidableEq

/-- The filesystem visible to the program: contents of each path (parsed
JSON, `none` when the file does not exist) plus permission bits governing
`open(..., 'r')`, `open(..., 'w')` and `os.remove`. -/
structure FS where
  content : FPath → Option Json
  canRead : FPath → Bool
  canWrite : FPath → Bool
  canRemove : FPath → Bool

/-! ## Log store operations -/

/-- `os.path.expanduser`, for a process whose home directory is `home`:
`~` alone and a leading `~/` are replaced by `home`; anything else is
returned unchanged. -/
def expanduser (home : List Char) (s : List Char) : List Char :=
  if s = ['~'] then home
  else if ['~', '/'].isPrefixOf s then home ++ s.drop 1
  else s

/-- `validate_log_file`: appends `LOG_FILE_EXT` when missing, then
expands the user-home shorthand. -/
def validate_log_file (home : List Char) (log_file_name : List Char) : List Char :=
  expanduser home
    (if LOG_FILE_EXT.isSuffixOf log_file_name then log_file_name
     else log_file_name ++ LOG_FILE_EXT)

/-- `clear_log`: `os.remove`, passing on `FileNotFoundError`, exiting
with `EX_NOPERM` on `PermissionError`. -/
def clear_log (fs : FS) (p : FPath) : Except PyExit FS :=
  match fs.content p with
  | none => .ok fs
  | some _ =>
    if fs.canRemove p then
      .ok { fs with content := fun q => if q = p then none else fs.content q }
    else
      .error (.exit EX_NOPERM)

/-- `get_log_data`: reads and parses the log file; a missing file yields
a fresh document, an unreadable file exits with `EX_NOPERM`, a file whose
JSON does not have the expected shape raises (uncaught `KeyError` or
`TypeError`). The version mismatch only prints, so it does not appear in
the result. -/
def get_log_data (fs : FS) (p : FPath) : Except PyExit LogDocument :=
  match fs.content p with
  | none => .ok ⟨LOG_VERSION, []⟩
  | some j =>
    if fs.canRead p then
      match logFromJson j with
      | some d => .ok d
      | none => .error .typeError
    else
      .error (.exit EX_NOPERM)

/-- `write_log`: serializes the document and overwrites the file,
exiting with `EX_CANTCREAT` on `PermissionError`. -/
def write_log (fs : FS) (log_data : LogDocument) (p : FPath) : Except PyExit FS :=
  if fs.canWrite p then
    .ok { fs with content := fun q => if q = p then some (logToJson log_data) else fs.content q }
  else
    .error (.exit EX_CANTCREAT)

/-! ## Rounding -/

/-- Python's `round` to zero decimals on an exact value: round half to
even. -/
def pyRound (q : ℚ) : Int :=
  if q - ⌊q⌋ = 1 / 2 then (if 2 ∣ ⌊q⌋ then ⌊q⌋ else ⌊q⌋ + 1) else round q

/-- Python's `round(x, 2)`. -/
def round2 (q : ℚ) : ℚ := (pyRound (q * 100) : ℚ) / 100

/-! ## Measurement runner -/

/-- The raw result dict of the external speedtest provider:
`results['ping']` in milliseconds, `results['download']` and
`results['upload']` in bits per second. -/
structure ProviderResult where
  ping : ℚ
  download : ℚ
  upload : ℚ
deriving DecidableEq, Repr

/-- Behavior of one invocation of the external provider: either it
completes with a result dict at some whole-second completion time, or it
raises `speedtest.ConfigRetrievalError`. -/
inductive Provider where
  | ok (results : ProviderResult) (completion_time : Int)
  | configError
deriving DecidableEq, Repr

/-- `run_speedtest`: exits `EX_TEMPFAIL` on `ConfigRetrievalError`,
exits `EX_UNAVAILABLE` when the provider reports zero download and zero
upload, and otherwise builds the record (unit conversion to Mbps and
rounding to two decimals). -/
def run_speedtest (pr : Provider) : Except PyExit MeasurementRecord :=
  match pr with
  | .configError => .error (.exit EX_TEMPFAIL)
  | .ok results t =>
    if results.download = 0 ∧ results.upload = 0 then
      .error (.exit EX_UNAVAILABLE)
    else
      .ok { timestamp := t,
            ping := round2 results.ping,
            download := round2 (results.download / MEGA_FACTOR),
            upload := round2 (results.upload / MEGA_FACTOR) }

/-! ## Averager -/

/-- The value `argparse` stores for `-n` (`--num-days`): the option has no
`type=` converter, so the default is the `int` `7` while any value
supplied on the command line is kept as a `str`. -/
inductive NumDays where
  | int (n : Int)
  | str (s : List Char)
deriving DecidableEq, Repr

/-- `argparse` handling of `-n` (`--num-days`): `none` means the flag was
absent from the command line, `some s` that the raw text `s` was
supplied. -/
def parseNumDays (cli : Option (List Char)) : NumDays :=
  match cli with
  | none => .int DEFAULT_NUM_DAYS
  | some s => .str s

/-- The `sums` dict of `show_averages` together with the `results_used`
counter. -/
structure Sums where
  ping : ℚ
  download : ℚ
  upload : ℚ
  results_used : Nat
deriving DecidableEq, Repr

/-- The accumulation loop of `show_averages` over `tests`, for an integer
`num_days` value `n` and current time `now = int(time.time())`. -/
def accumulate (n : Int) (now : Int) (tests : List MeasurementRecord) : Sums :=
  tests.foldl
    (fun s t =>
      if now - t.timestamp < n * DAY_LENGTH then
        { ping := s.ping + t.ping, download := s.download + t.download,
          upload := s.upload + t.upload, results_used := s.results_used + 1 }
      else s)
    ⟨0, 0, 0, 0⟩

/-- `show_averages`: exits `EX_NOINPUT` on an empty test list; then, if
`num_days` is a string (any command-line-supplied value), the comparison
`int(time.time()) - test['timestamp'] < num_days*DAY_LENGTH` multiplies a
`str` by an `int` (string repetition) and compares it against an `int`,
raising `TypeError` on the first loop iteration; with an integer
`num_days` it accumulates the matching records and divides by
`results_used`, raising `ZeroDivisionError` when none matched. On
success, returns the values substituted into the format string:
`results_used` and the three rounded averages. -/
def show_averages (tests : List MeasurementRecord) (num_days : NumDays) (now : Int) :
    Except PyExit (Nat × ℚ × ℚ × ℚ) :=
  if tests.length = 0 then .error (.exit EX_NOINPUT)
  else
    match num_days with
    | .str _ => .error .typeError
    | .int n =>
      let s := accumulate n now tests
      if s.results_used = 0 then .error .zeroDivision
      else
        .ok (s.results_used,
             round2 (s.ping / (s.results_used : ℚ)),
             round2 (s.download / (s.results_used : ℚ)),
             round2 (s.upload / (s.results_used : ℚ)))

/-! ## CLI orchestrator -/

/-- The parsed command line (`args`), after `validate_log_file` is still
to be applied to `log_file`. The format string is not modelled beyond the
positional values `show_averages` feeds it. -/
structure Args where
  log_file : List Char
  num_days : NumDays
  reset : Bool
  silent : Bool
  test : Bool
deriving Repr

/-- The `if args.reset: clear_log(...)` step of `main`. -/
def resetStep (args : Args) (fs : FS) (p : FPath) : Except PyExit FS :=
  if args.reset then clear_log fs p else pure fs

/-- The body of `main`, in fixed order: resolve path, optional reset,
load, optional speedtest + append + persist, optional report. -/
def mainBody (args : Args) (home : List Char) (fs : FS) (pr : Provider) (now : Int) :
    Except PyExit Unit := do
  let p : FPath := validate_log_file home args.log_file
  let fs ← resetStep args fs p
  let log_data ← get_log_data fs p
  let (log_data, _fs) ←
    if args.test then do
      let r ← run_speedtest pr
      let log_data : LogDocument := { log_data with tests := log_data.tests ++ [r] }
      let fs ← write_log fs log_data p
      pure (log_data, fs)
    else
      pure (log_data, fs)
  if args.silent then
    pure ()
  else do
    let _ ← show_averages log_data.tests args.num_days now
    pure ()

/-- `main`: runs the body and maps its completion to `sys.exit(os.EX_OK)`;
any earlier `sys.exit`/uncaught exception is the process outcome. -/
def py_main (args : Args) (home : List Char) (fs : FS) (pr : Provider) (now : Int) : PyExit :=
  match mainBody args home fs pr now with
  | .ok _ => .exit EX_OK
  | .error e => e

/-! ## Sample values used by the witnesses -/

/-- A sample log document with one record. -/
def sampleDoc : LogDocument := ⟨"1.0", [⟨1700000000, 41/2, 401/4, 43/4⟩]⟩

/-- A sample resolved log path. -/
def samplePath : FPath := ['l', 'o', 'g', '.', 'j', 's', 'o', 'n']

/-- A filesystem with no files and full permissions. -/
def emptyFS : FS := ⟨fun _ => none, fun _ => true, fun _ => true, fun _ => true⟩

/-- A filesystem holding `sampleDoc` everywhere but refusing every
permission. -/
def noPermFS : FS := ⟨fun _ => some (logToJson sampleDoc), fun _ => false, fun _ => false, fun _ => false⟩

/-- A sample record list: one record inside the seven-day window at
time `8 * 86400`, one outside it. -/
def sampleTests : List MeasurementRecord := [⟨0, 1, 2, 3⟩, ⟨8 * 86400, 1, 2, 3⟩]

/-- Sample parsed command line: `--silent`, no other flags, default
window, log file name `mylog`. -/
def sampleArgs : Args :=
  ⟨['m', 'y', 'l', 'o', 'g'], .int DEFAULT_NUM_DAYS, false, true, false⟩


/-! ## Helper lemmas -/

theorem recsFromJson_map (ts : List MeasurementRecord) :
    recsFromJson (ts.map recToJson) = some ts := by
  induction ts with
  | nil => rfl
  | cons h t ih => simp [recsFromJson, ih]; rfl

theorem logFromJson_logToJson (d : LogDocument) : logFromJson (logToJson d) = some d := by
  simp [logFromJson, logToJson, jsonLookup, recsFromJson_map]

theorem get_log_data_none (fs : FS) (p : FPath) (h : fs.content p = none) :
    get_log_data fs p = .ok ⟨LOG_VERSION, []⟩ := by
  simp [get_log_data, h]

theorem accumulate_results_used (n now : Int) (tests : List MeasurementRecord) :
    (accumulate n now tests).results_used =
      (tests.filter fun t => decide (now - t.timestamp < n * DAY_LENGTH)).length := by
  suffices h : ∀ (l : List MeasurementRecord) (s : Sums),
      (l.foldl (fun s t =>
        if now - t.timestamp < n * DAY_LENGTH then
          { ping := s.ping + t.ping, download := s.download + t.download,
            upload := s.upload + t.upload, results_used := s.results_used + 1 }
        else s) s).results_used
      = s.results_used + (l.filter fun t => decide (now - t.timestamp < n * DAY_LENGTH)).length by
    simpa [accumulate] using h tests ⟨0, 0, 0, 0⟩
  intro l
  induction l with
  | nil => intro s; simp
  | cons hd tl ih =>
    intro s
    by_cases hc : now - hd.timestamp < n * DAY_LENGTH
    · simp [hc, ih]
      omega
    · simp [hc, ih]

theorem tildeSlash_isPrefixOf_iff (s : List Char) :
    (['~', '/'].isPrefixOf s = true) ↔ ∃ rest, s = '~' :: '/' :: rest := by
  rw [List.isPrefixOf_iff_prefix]
  constructor
  · rintro ⟨t, ht⟩
    exact ⟨t, ht.symm⟩
  · rintro ⟨rest, rfl⟩
    exact ⟨rest, rfl⟩

theorem expanduser_of_head_ne (home s : List Char) (h : s.head? ≠ some '~') :
    expanduser home s = s := by
  have h1 : s ≠ ['~'] := by rintro rfl; simp at h
  have h2 : ¬(['~', '/'].isPrefixOf s = true) := by
    rw [tildeSlash_isPrefixOf_iff]
    rintro ⟨rest, rfl⟩
    simp at h
  simp [expanduser, h1, h2]

/-! ## Claims -/

/-- C1: averaging an empty record list always fails with the no-input
kind (`sys.exit(os.EX_NOINPUT)`, after printing the no-data message),
whatever the window value and the current time; in particular it never
reaches the division, so no arithmetic fault can occur. -/
theorem show_averages_empty_noinput (num_days : NumDays) (now : Int) :
    show_averages [] num_days now = .error (.exit EX_NOINPUT) := rfl

/-- C2: on a non-empty record list in which no record satisfies
`now - timestamp < n * DAY_LENGTH`, `show_averages` reaches the mean
computation with `results_used = 0` and raises `ZeroDivisionError`
instead of failing with the no-input kind. -/
theorem show_averages_zero_matched_div_zero (tests : List MeasurementRecord) (n now : Int)
    (hne : tests ≠ [])
    (hnone : ∀ t ∈ tests, ¬(now - t.timestamp < n * DAY_LENGTH)) :
    show_averages tests (.int n) now = .error .zeroDivision := by
  have hfil : (tests.filter fun t => decide (now - t.timestamp < n * DAY_LENGTH)) = [] := by
    rw [List.filter_eq_nil_iff]
    intro t ht
    simpa using hnone t ht
  have hcnt : (accumulate n now tests).results_used = 0 := by
    rw [accumulate_results_used, hfil]
    rfl
  have hlen : ¬tests.length = 0 := by simpa [List.length_eq_zero] using hne
  simp [show_averages, hcnt, hlen]

/-- Witness for C2 at a concrete input: one record of age eight days
against a seven-day window. -/
theorem show_averages_zero_matched_div_zero_witness :
    show_averages [⟨0, 1, 2, 3⟩] (.int 7) (8 * 86400) = .error .zeroDivision :=
  show_averages_zero_matched_div_zero [⟨0, 1, 2, 3⟩] 7 (8 * 86400) (by decide)
    (by decide)

/-- C3: on any non-empty record list, for any integer window `n` and any
current time, the accumulation loop of `show_averages` counts exactly
the records with `now - timestamp < n * DAY_LENGTH` (strict comparison,
and a record is in the filtered subset iff it satisfies it), the count
is at most the total number of records, and whenever the count is
nonzero `show_averages` reports exactly that count. -/
theorem show_averages_matched_count (tests : List MeasurementRecord) (n now : Int)
    (hne : tests ≠ []) :
    (accumulate n now tests).results_used
        = (tests.filter fun t => decide (now - t.timestamp < n * DAY_LENGTH)).length
    ∧ (accumulate n now tests).results_used ≤ tests.length
    ∧ (∀ t ∈ tests,
        (t ∈ tests.filter fun t => decide (now - t.timestamp < n * DAY_LENGTH))
          ↔ now - t.timestamp < n * DAY_LENGTH)
    ∧ ((accumulate n now tests).results_used ≠ 0 →
        ∃ p d u, show_averages tests (.int n) now
            = .ok ((accumulate n now tests).results_used, p, d, u)) := by
  refine ⟨accumulate_results_used n now tests, ?_, ?_, ?_⟩
  · rw [accumulate_results_used]
    exact List.length_filter_le _ _
  · intro t ht
    simp [List.mem_filter, ht]
  · intro hz
    have hlen : ¬tests.length = 0 := by simpa [List.length_eq_zero] using hne
    exact ⟨round2 ((accumulate n now tests).ping / ((accumulate n now tests).results_used : ℚ)),
           round2 ((accumulate n now tests).download / ((accumulate n now tests).results_used : ℚ)),
           round2 ((accumulate n now tests).upload / ((accumulate n now tests).results_used : ℚ)),
           by simp [show_averages, hlen, hz]⟩

/-- Witness for C3 at a concrete input: two records, one inside the
seven-day window and one outside it. -/
theorem show_averages_matched_count_witness :
    (accumulate 7 (8 * 86400) sampleTests).results_used
        = (sampleTests.filter fun t => decide (8 * 86400 - t.timestamp < 7 * DAY_LENGTH)).length
    ∧ (accumulate 7 (8 * 86400) sampleTests).results_used ≤ sampleTests.length
    ∧ (∀ t ∈ sampleTests,
        (t ∈ sampleTests.filter fun t => decide (8 * 86400 - t.timestamp < 7 * DAY_LENGTH))
          ↔ 8 * 86400 - t.timestamp < 7 * DAY_LENGTH)
    ∧ ((accumulate 7 (8 * 86400) sampleTests).results_used ≠ 0 →
        ∃ p d u, show_averages sampleTests (.int 7) (8 * 86400)
            = .ok ((accumulate 7 (8 * 86400) sampleTests).results_used, p, d, u)) :=
  show_averages_matched_count sampleTests 7 (8 * 86400) (by decide)

/-- C4: persisting a document with `write_log` and loading it back with
`get_log_data` from the same path yields the document unchanged, field
for field and with record order preserved (document equality in the
model is field-for-field equality). -/
theorem write_log_get_log_data_roundtrip (fs : FS) (p : FPath) (doc : LogDocument)
    (hw : fs.canWrite p = true) (hr : fs.canRead p = true) :
    ∃ fs', write_log fs doc p = .ok fs' ∧ get_log_data fs' p = .ok doc := by
  refine ⟨{ fs with content := fun q => if q = p then some (logToJson doc) else fs.content q },
          ?_, ?_⟩
  · simp [write_log, hw]
  · simp [get_log_data, hr, logFromJson_logToJson]

/-- Witness for C4 at a concrete input: `sampleDoc` written to
`samplePath` on an initially empty, fully permitted filesystem. -/
theorem write_log_get_log_data_roundtrip_witness :
    ∃ fs', write_log emptyFS sampleDoc samplePath = .ok fs'
      ∧ get_log_data fs' samplePath = .ok sampleDoc :=
  write_log_get_log_data_roundtrip emptyFS samplePath sampleDoc rfl rfl

/-- C5: loading a path at which no log file exists returns a fresh
document with an empty tests list and the current schema version
(`LOG_VERSION`), as a success, not an error. -/
theorem get_log_data_absent_fresh (fs : FS) (p : FPath) (h : fs.content p = none) :
    get_log_data fs p = .ok ⟨LOG_VERSION, []⟩ :=
  get_log_data_none fs p h

/-- Witness for C5 at a concrete input: `samplePath` on the empty
filesystem. -/
theorem get_log_data_absent_fresh_witness :
    get_log_data emptyFS samplePath = .ok ⟨LOG_VERSION, []⟩ :=
  get_log_data_absent_fresh emptyFS samplePath rfl

/-- C6 counterexample: on a filesystem which denies every permission on
an existing log file, clearing and reading exit with `EX_NOPERM` (77)
but writing exits with `EX_CANTCREAT` (73), so the three permission
failures do not share a single permission-denied exit code. -/
theorem perm_exit_codes_differ :
    clear_log noPermFS samplePath = .error (.exit EX_NOPERM)
    ∧ get_log_data noPermFS samplePath = .error (.exit EX_NOPERM)
    ∧ write_log noPermFS sampleDoc samplePath = .error (.exit EX_CANTCREAT)
    ∧ EX_CANTCREAT ≠ EX_NOPERM :=
  ⟨rfl, rfl, rfl, by decide⟩

/-- C6 amended: a permission failure while clearing or reading the log
exits with `EX_NOPERM`, while a permission failure while writing exits
with `EX_CANTCREAT`; each of the two codes is distinct from every other
exit code of the program. -/
theorem perm_denied_exit_codes (fs : FS) (p : FPath) (doc : LogDocument) (j : Json)
    (hc : fs.content p = some j) (hrm : fs.canRemove p = false)
    (hrd : fs.canRead p = false) (hwr : fs.canWrite p = false) :
    clear_log fs p = .error (.exit EX_NOPERM)
    ∧ get_log_data fs p = .error (.exit EX_NOPERM)
    ∧ write_log fs doc p = .error (.exit EX_CANTCREAT)
    ∧ EX_NOPERM ∉ ([EX_OK, EX_NOINPUT, EX_UNAVAILABLE, EX_TEMPFAIL, EX_CANTCREAT] : List Int)
    ∧ EX_CANTCREAT ∉ ([EX_OK, EX_NOINPUT, EX_UNAVAILABLE, EX_TEMPFAIL, EX_NOPERM] : List Int) := by
  refine ⟨?_, ?_, ?_, by decide, by decide⟩
  · simp [clear_log, hc, hrm]
  · simp [get_log_data, hc, hrd]
  · simp [write_log, hwr]

/-- Witness for the amended C6 at a concrete input: the all-denying
filesystem `noPermFS`. -/
theorem perm_denied_exit_codes_witness :
    clear_log noPermFS samplePath = .error (.exit EX_NOPERM)
    ∧ get_log_data noPermFS samplePath = .error (.exit EX_NOPERM)
    ∧ write_log noPermFS sampleDoc samplePath = .error (.exit EX_CANTCREAT)
    ∧ EX_NOPERM ∉ ([EX_OK, EX_NOINPUT, EX_UNAVAILABLE, EX_TEMPFAIL, EX_CANTCREAT] : List Int)
    ∧ EX_CANTCREAT ∉ ([EX_OK, EX_NOINPUT, EX_UNAVAILABLE, EX_TEMPFAIL, EX_NOPERM] : List Int) :=
  perm_denied_exit_codes noPermFS samplePath sampleDoc (logToJson sampleDoc) rfl rfl rfl rfl

/-- C7: the program's documentation and spec promise an integer window,
but `arg_parser` declares `-n` (`--num-days`) without a type converter:
a command-line-supplied value is kept as a string, and `show_averages`
then raises `TypeError` at the window comparison instead of filtering by
`num_days * 86400` seconds, while the integer default `7` follows the
documented comparison. -/
theorem num_days_cli_string_raises :
    parseNumDays (some ['3']) = .str ['3']
    ∧ show_averages [⟨1, 1, 2, 3⟩] (parseNumDays (some ['3'])) 2 = .error .typeError
    ∧ parseNumDays none = .int 7
    ∧ show_averages [⟨1, 1, 2, 3⟩] (parseNumDays none) 2
        = show_averages [⟨1, 1, 2, 3⟩] (.int 7) 2 :=
  ⟨rfl, rfl, rfl, rfl⟩

/-- C8: `run_speedtest` exits with the service-unavailable code exactly
when the provider reports zero download and zero upload; the only other
fatal path, a configuration retrieval failure, uses the distinct
temporary-failure code. -/
theorem run_speedtest_unavailable_iff (results : ProviderResult) (t : Int) :
    (run_speedtest (.ok results t) = .error (.exit EX_UNAVAILABLE)
        ↔ results.download = 0 ∧ results.upload = 0)
    ∧ run_speedtest .configError = .error (.exit EX_TEMPFAIL)
    ∧ (PyExit.exit EX_TEMPFAIL) ≠ .exit EX_UNAVAILABLE := by
  refine ⟨?_, rfl, by decide⟩
  by_cases h : results.download = 0 ∧ results.upload = 0
  · simp [run_speedtest, h]
  · simp [run_speedtest, h]

/-- C9: path resolution is idempotent. A path that already carries the
log file extension and is already home-expanded is returned unchanged
by `validate_log_file`, and, provided the home directory is itself an
expanded path (it does not begin with the shorthand `~`), resolving an
already-resolved path yields the same path. -/
theorem validate_log_file_idem (home s : List Char) (hhome : home.head? ≠ some '~') :
    (LOG_FILE_EXT.isSuffixOf s = true → expanduser home s = s →
        validate_log_file home s = s)
    ∧ validate_log_file home (validate_log_file home s) = validate_log_file home s := by
  constructor
  · intro hs hexp
    simp only [validate_log_file, if_pos hs]
    exact hexp
  · have key : ∀ t : List Char, LOG_FILE_EXT.isSuffixOf t = true →
        validate_log_file home (expanduser home t) = expanduser home t := by
      intro t ht
      have hsufT : LOG_FILE_EXT <:+ t := List.isSuffixOf_iff_suffix.mp ht
      by_cases h1 : t = ['~']
      · exfalso
        have hle := hsufT.length_le
        rw [h1] at hle
        simp [LOG_FILE_EXT] at hle
      · by_cases h2 : ['~', '/'].isPrefixOf t = true
        · obtain ⟨rest, hrest⟩ := (tildeSlash_isPrefixOf_iff t).mp h2
          have hexp : expanduser home t = home ++ '/' :: rest := by
            simp [expanduser, h1, h2, hrest]
          obtain ⟨pre, hpre⟩ := hsufT
          have hsuf2 : LOG_FILE_EXT <:+ '/' :: rest := by
            cases pre with
            | nil =>
              exfalso
              rw [hrest] at hpre
              simp [LOG_FILE_EXT] at hpre
            | cons c pre2 =>
              rw [hrest] at hpre
              rw [List.cons_append] at hpre
              injection hpre with hhead htail
              exact ⟨pre2, htail⟩
          have hsufU : LOG_FILE_EXT.isSuffixOf (home ++ '/' :: rest) = true :=
            List.isSuffixOf_iff_suffix.mpr
              (hsuf2.trans (List.suffix_append home ('/' :: rest)))
          have hheadU : (home ++ '/' :: rest).head? ≠ some '~' := by
            cases home with
            | nil => simp
            | cons c cs =>
              have hc : ¬c = '~' := by simpa using hhome
              simpa using hc
          rw [hexp]
          simp only [validate_log_file, if_pos hsufU]
          exact expanduser_of_head_ne home _ hheadU
        · have hexp : expanduser home t = t := by simp [expanduser, h1, h2]
          rw [hexp]
          simp only [validate_log_file, if_pos ht]
          exact hexp
    have hts : LOG_FILE_EXT.isSuffixOf
        (if LOG_FILE_EXT.isSuffixOf s then s else s ++ LOG_FILE_EXT) = true := by
      by_cases h : LOG_FILE_EXT.isSuffixOf s
      · simp [h]
      · simp only [if_neg h]
        exact List.isSuffixOf_iff_suffix.mpr (List.suffix_append s LOG_FILE_EXT)
    exact key _ hts

/-- Witness for C9 at a concrete input: home `/home/u` and path `~/x`
(which resolves to `/home/u/x.json`). -/
theorem validate_log_file_idem_witness :
    (LOG_FILE_EXT.isSuffixOf "~/x".toList = true →
        expanduser "/home/u".toList "~/x".toList = "~/x".toList →
        validate_log_file "/home/u".toList "~/x".toList = "~/x".toList)
    ∧ validate_log_file "/home/u".toList (validate_log_file "/home/u".toList "~/x".toList)
        = validate_log_file "/home/u".toList "~/x".toList :=
  validate_log_file_idem "/home/u".toList "~/x".toList (by decide)

/-- C10: with the silent flag set and the test flag clear, the no-input
failure cannot occur: against an absent log file — or a readable one
holding zero records — `main` runs to `sys.exit(os.EX_OK)`, because the
empty-record check lives in `show_averages`, which silent mode skips
(when the reset flag is also given, the removal must be permitted or
find no file). -/
theorem silent_exits_ok (args : Args) (home : List Char) (fs : FS) (pr : Provider) (now : Int)
    (hs : args.silent = true) (ht : args.test = false)
    (hlog : fs.content (validate_log_file home args.log_file) = none
        ∨ (fs.canRead (validate_log_file home args.log_file) = true
           ∧ ∃ v, fs.content (validate_log_file home args.log_file) = some (logToJson ⟨v, []⟩)))
    (hreset : args.reset = true →
        fs.content (validate_log_file home args.log_file) = none
        ∨ fs.canRemove (validate_log_file home args.log_file) = true) :
    py_main args home fs pr now = .exit EX_OK := by
  set p := validate_log_file home args.log_file with hp
  have hstep : ∃ fs1 : FS,
      resetStep args fs p = Except.ok fs1
      ∧ (fs1.content p = none
         ∨ (fs1.canRead p = true ∧ ∃ v, fs1.content p = some (logToJson ⟨v, []⟩))) := by
    unfold resetStep
    by_cases hr : args.reset = true
    · rw [if_pos hr]
      cases hc : fs.content p with
      | none => exact ⟨fs, by simp [clear_log, hc], Or.inl hc⟩
      | some j =>
        have hrm : fs.canRemove p = true := by
          rcases hreset hr with h | h
          · rw [hc] at h
            cases h
          · exact h
        refine ⟨{ fs with content := fun q => if q = p then none else fs.content q },
                ?_, Or.inl ?_⟩
        · simp [clear_log, hc, hrm]
        · simp
    · rw [if_neg hr]
      exact ⟨fs, rfl, hlog⟩
  obtain ⟨fs1, hfs1, hlog1⟩ := hstep
  have hget : ∃ v, get_log_data fs1 p = .ok ⟨v, []⟩ := by
    rcases hlog1 with h | ⟨hr, v, h⟩
    · exact ⟨LOG_VERSION, get_log_data_none fs1 p h⟩
    · exact ⟨v, by simp [get_log_data, h, hr, logFromJson_logToJson]⟩
  obtain ⟨v, hget⟩ := hget
  unfold py_main mainBody
  simp only [← hp]
  simp [hfs1, hget, ht, hs, Except.bind, Except.map, Bind.bind, Functor.map, Except.pure, Pure.pure]

/-- Witness for C10 at a concrete input: a silent, test-less invocation
over the empty filesystem (the provider never being consulted). -/
theorem silent_exits_ok_witness :
    py_main sampleArgs ['/', 'h'] emptyFS .configError 0 = .exit EX_OK :=
  silent_exits_ok sampleArgs ['/', 'h'] emptyFS .configError 0 rfl rfl
    (Or.inl rfl) (fun h => absurd h (by decide))
